import Mathlib

/-!
Verification of the `base-ts-result` library: the `Result` sum type
(result.ts), its asynchronous counterpart `AsyncResult` (asyncResult.ts),
and the error-normalization routine (baseResultError.ts), shallowly
embedded as pure Lean functions over a model of JavaScript runtime values.
-/

namespace BaseTsResult

/-- Model of the string-conversion slot of a plain JavaScript object:
no `toString` function at all, the inherited default
`Object.prototype.toString`, or an own (custom) `toString` whose call
returns a string `some s` or a non-string value `none`. -/
inductive JSToString where
  | noFn
  | defaultFn
  | custom (ret : Option String)
deriving DecidableEq, Repr

/-- Model of a JavaScript runtime value as the library observes it:
`null`, `undefined`, the primitives, arrays (carrying the string their
`Array.prototype.toString` join renders), native `Error` instances
(name, message, optional stack), and plain objects (the list of property
names present on them plus their string-conversion slot). Numbers are
restricted to integers, which covers every numeric value the
specification discusses. -/
inductive JSValue where
  | vNull
  | vUndefined
  | vBool (b : Bool)
  | vNum (n : Int)
  | vStr (s : String)
  | vArr (str : String)
  | vErr (name message : String) (stack : Option String)
  | vObj (fields : List String) (ts : JSToString)
deriving DecidableEq, Repr

/-- JavaScript `typeof` on the modelled values. -/
def typeof : JSValue → String
  | .vNull => "object"
  | .vUndefined => "undefined"
  | .vBool _ => "boolean"
  | .vNum _ => "number"
  | .vStr _ => "string"
  | .vArr _ => "object"
  | .vErr _ _ _ => "object"
  | .vObj _ _ => "object"

/-- JavaScript `Array.isArray`. -/
def isArray : JSValue → Bool
  | .vArr _ => true
  | _ => false

/-- JavaScript `v instanceof Error`, true exactly for native error
instances. -/
def instanceofError : JSValue → Bool
  | .vErr _ _ _ => true
  | _ => false

/-- JavaScript truthiness (`!val` is its negation): `null`, `undefined`,
`false`, `0` and `""` are falsy, everything else modelled is truthy. -/
def jsTruthy : JSValue → Bool
  | .vNull => false
  | .vUndefined => false
  | .vBool b => b
  | .vNum n => n != 0
  | .vStr s => s != ""
  | _ => true

/-- JavaScript `typeof v?.toString === 'function'`: `null` and
`undefined` short-circuit to `undefined`; objects without a `toString`
slot have none; every other modelled value inherits one. -/
def hasToStringFn : JSValue → Bool
  | .vNull => false
  | .vUndefined => false
  | .vObj _ .noFn => false
  | _ => true

/-- `Error.prototype.toString`: the name, then `": "` and the message
when the message is nonempty. -/
def errorToString (name message : String) : String :=
  if message = "" then name
  else if name = "" then message
  else name ++ ": " ++ message

/-- The result of calling `v.toString()` when it yields a string:
`some s` when `toString` is callable and returns the string `s`, `none`
when there is no `toString` function or its result is not a string. -/
def jsToString : JSValue → Option String
  | .vNull => none
  | .vUndefined => none
  | .vBool b => some (if b then "true" else "false")
  | .vNum n => some (toString n)
  | .vStr s => some s
  | .vArr str => some str
  | .vErr name message _ => some (errorToString name message)
  | .vObj _ .noFn => none
  | .vObj _ .defaultFn => some "[object Object]"
  | .vObj _ (.custom ret) => ret

/-- JavaScript `'f' in v` for the property names the normalizer probes:
present on plain objects when listed, always present on native errors,
absent elsewhere. -/
def hasField (v : JSValue) (f : String) : Bool :=
  match v with
  | .vObj fields _ => fields.contains f
  | .vErr _ _ _ => f == "name" || f == "message" || f == "stack"
  | _ => false

/-- JavaScript `v.toString === Object.prototype.toString`: true exactly
for plain objects that inherit the default conversion. -/
def hasDefaultToString : JSValue → Bool
  | .vObj _ .defaultFn => true
  | _ => false

/-- Embeds `isResultBaseError` from baseResultError.ts: a truthy value
of `typeof` "object" carrying both a `message` and a `name` property
whose `toString` is not `Object.prototype.toString`. -/
def isResultBaseError (val : JSValue) : Bool :=
  if !jsTruthy val || typeof val != "object" then false
  else hasField val "message" && hasField val "name" && !hasDefaultToString val

/-- Outcome of the error normalizer: either the original value returned
unchanged (identity passthrough), or a freshly constructed `BaseError`
wrapper recording its `name`, `message` and the original value. -/
inductive NormResult where
  | passthrough (v : JSValue)
  | wrapped (name message : String) (origValue : JSValue)

/-- The `message` the `BaseError` constructor in baseResultError.ts
builds: `"Caught exotic value (<kind>)"` with kind `"array"` for arrays
and otherwise the `typeof` name, then `": <s>"` appended when the value
has a callable `toString` whose call returns the string `s`. -/
def BaseError.mkMessage (origValue : JSValue) : String :=
  let type := if isArray origValue then "array" else typeof origValue
  let base := "Caught exotic value (" ++ type ++ ")"
  if !hasToStringFn origValue then base
  else
    match jsToString origValue with
    | none => base
    | some newMsg => base ++ ": " ++ newMsg

/-- Embeds `thrownUnknownToBaseError` from baseResultError.ts (the
current revision, the one src/src/asyncResult.test.ts exercises): native
`Error` instances and values passing `isResultBaseError` are returned
unchanged; everything else is wrapped in a new `BaseError`. -/
def thrownUnknownToBaseError (origValue : JSValue) : NormResult :=
  if instanceofError origValue then .passthrough origValue
  else if isResultBaseError origValue then .passthrough origValue
  else .wrapped "BaseError" (BaseError.mkMessage origValue) origValue

/-- The `origValue` property read off a normalized error: the wrapper
records the original value; a passed-through native error has no such
own property (`undefined`). -/
def NormResult.origValue : NormResult → Option JSValue
  | .passthrough _ => none
  | .wrapped _ _ o => some o

/-- The `message` of the wrapper, `none` on a passthrough. -/
def NormResult.wrappedMessage : NormResult → Option String
  | .passthrough _ => none
  | .wrapped _ m _ => some m

/-- A value thrown by the library: `new Error(message)` raised at the
assertion points, or the host `TypeError` that escapes when the held
error's `toString` is missing or returns a non-string. -/
inductive JsThrown where
  | errObj (message : String)
  | typeError
deriving DecidableEq, Repr

/-- Embeds the two-variant `Result` of result.ts: the `OK` class holding
a value or the `ERR` class holding an error. -/
inductive Result (Val ErrT : Type) where
  | Ok (value : Val)
  | Err (value : ErrT)

/-- The four-space indent `origErrIndent` of result.ts. -/
def origErrIndent : String := "    "

/-- The `origErrorPrefix` constant of result.ts, indent plus `"> "`. -/
def origErrorMark : String := origErrIndent ++ "> "

/-- JavaScript splitting of a character list at newline characters. -/
def splitCharsNl : List Char → List (List Char)
  | [] => [[]]
  | c :: rest =>
    let r := splitCharsNl rest
    if c = '\n' then [] :: r
    else
      match r with
      | [] => [[c]]
      | h :: t => (c :: h) :: t

/-- JavaScript `str.split('\n')` on the model. -/
def splitLines (s : String) : List String :=
  (splitCharsNl s.data).map (fun l => String.mk l)

/-- JavaScript `lines.join('\n')`. -/
def joinWithNl : List String → String
  | [] => ""
  | [x] => x
  | x :: rest => x ++ "\n" ++ joinWithNl rest

/-- Embeds `ERR.prefixMultiLineStr` of result.ts: split the string at
newlines, put `origErrorMark` before every line, join back. -/
def prefixMultiLineStr (str : String) : String :=
  joinWithNl ((splitLines str).map (fun line => origErrorMark ++ line))

/-- JavaScript string concatenation with a possibly-undefined operand:
`undefined` coerces to the literal text `"undefined"`. -/
def jsStrOrUndefined : Option String → String
  | some s => s
  | none => "undefined"

/-- Embeds `ERR.getAdditionalErrorMessage` of result.ts. `.ok` carries
the returned string (or `none` for the function's implicit `undefined`
when the held value is neither an error, an object, a number nor a
string); `.error ()` is the `TypeError` thrown by `.split` when an
object's `toString` is missing or returns a non-string. -/
def getAdditionalErrorMessage (value : JSValue) : Except Unit (Option String) :=
  match value with
  | .vErr _ _ stack =>
    .ok (some ("Original error:\n" ++ jsStrOrUndefined (stack.map prefixMultiLineStr)))
  | .vNull => .ok (some "Original error is null")
  | .vObj _ .defaultFn => .ok (some "Original error is object")
  | .vObj _ .noFn => .error ()
  | .vObj _ (.custom none) => .error ()
  | .vObj _ (.custom (some s)) =>
    .ok (some ("Original error:\n" ++ prefixMultiLineStr s))
  | .vArr str => .ok (some ("Original error:\n" ++ prefixMultiLineStr str))
  | .vNum n => .ok (some ("Original error is: " ++ toString n))
  | .vStr s => .ok (some ("Original error is: \"" ++ s ++ "\""))
  | .vBool _ => .ok none
  | .vUndefined => .ok none

/-- Embeds `ERR.throwError` of result.ts: raise `new Error` whose
message is the panic message, a newline, the indent, and the additional
message (JavaScript coerces its `undefined` to `"undefined"`). -/
def ERR.throwError (value : JSValue) (msg : String) : JsThrown :=
  match getAdditionalErrorMessage value with
  | .error () => .typeError
  | .ok add => .errObj (msg ++ "\n" ++ origErrIndent ++ jsStrOrUndefined add)

/-- `unwrap` of result.ts: the held value on `OK`; on `ERR`, throws via
`ERR.throwError` with the panic message. -/
def Result.unwrap {Val : Type} : Result Val JSValue → Except JsThrown Val
  | .Ok v => .ok v
  | .Err e => .error (ERR.throwError e "Tried to unwrap an Error result")

/-- `expect` of result.ts: the held value on `OK`; on `ERR`, throws via
`ERR.throwError` with the provided message. -/
def Result.expect {Val : Type} : Result Val JSValue → String → Except JsThrown Val
  | .Ok v, _ => .ok v
  | .Err e, msg => .error (ERR.throwError e msg)

/-- `unwrapErr` of result.ts: the held error on `ERR`; on `OK`, throws a
plain `Error`. -/
def Result.unwrapErr {Val ErrT : Type} : Result Val ErrT → Except JsThrown ErrT
  | .Ok _ => .error (.errObj "Tried to unwrap Ok result's error")
  | .Err e => .ok e

/-- `expectErr` of result.ts. -/
def Result.expectErr {Val ErrT : Type} : Result Val ErrT → String → Except JsThrown ErrT
  | .Ok _, msg => .error (.errObj msg)
  | .Err e, _ => .ok e

/-- `unwrapOr` of result.ts. -/
def Result.unwrapOr {Val ErrT : Type} : Result Val ErrT → Val → Val
  | .Ok v, _ => v
  | .Err _, alt => alt

/-- `unwrapOrElse` of result.ts. -/
def Result.unwrapOrElse {Val ErrT : Type} : Result Val ErrT → (ErrT → Val) → Val
  | .Ok v, _ => v
  | .Err e, altValFactory => altValFactory e

/-- `isOk` of result.ts. -/
def Result.isOk {Val ErrT : Type} : Result Val ErrT → Bool
  | .Ok _ => true
  | .Err _ => false

/-- `isErr` of result.ts. -/
def Result.isErr {Val ErrT : Type} : Result Val ErrT → Bool
  | .Ok _ => false
  | .Err _ => true

/-- `ok` of result.ts, with JavaScript `undefined` as `none`. -/
def Result.ok {Val ErrT : Type} : Result Val ErrT → Option Val
  | .Ok v => some v
  | .Err _ => none

/-- `err` of result.ts, with JavaScript `undefined` as `none`. -/
def Result.err {Val ErrT : Type} : Result Val ErrT → Option ErrT
  | .Ok _ => none
  | .Err e => some e

/-- `map` of result.ts: `OK.map` wraps the mapped value, `ERR.map`
returns `Err(this.value)` without touching the mapper. -/
def Result.map {Val ErrT MappedVal : Type} :
    Result Val ErrT → (Val → MappedVal) → Result MappedVal ErrT
  | .Ok v, mapper => .Ok (mapper v)
  | .Err e, _ => .Err e

/-- `mapErr` of result.ts: `ERR.mapErr` wraps the mapped error,
`OK.mapErr` returns `Ok(this.value)` without touching the mapper. -/
def Result.mapErr {Val ErrT MappedErr : Type} :
    Result Val ErrT → (ErrT → MappedErr) → Result Val MappedErr
  | .Ok v, _ => .Ok v
  | .Err e, mapper => .Err (mapper e)

/-- `mapOrElse` of result.ts: `OK.mapOrElse` returns
`Ok(mapper(value))`, `ERR.mapOrElse` returns `Ok(fallback(value))`. -/
def Result.mapOrElse {Val ErrT MappedVal : Type} :
    Result Val ErrT → (Val → MappedVal) → (ErrT → MappedVal) → Result MappedVal ErrT
  | .Ok v, mapper, _ => .Ok (mapper v)
  | .Err e, _, fallback => .Ok (fallback e)

/-- Model of a settled JavaScript promise: fulfilled with a value, or
rejected with a reason (an arbitrary runtime value). An `AsyncResult`
operation chained on a never-settling promise never settles either, so
only settled promises are modelled. -/
inductive JSPromise (α : Type) where
  | fulfilled (v : α)
  | rejected (r : JSValue)

/-- `promise.then(f)` with a synchronous handler: map the fulfillment
value, pass a rejection through. -/
def JSPromise.thenF {α β : Type} : JSPromise α → (α → β) → JSPromise β
  | .fulfilled v, f => .fulfilled (f v)
  | .rejected r, _ => .rejected r

/-- `promise.then(f)` with a promise-returning (async) handler: chain
and flatten on fulfillment, pass a rejection through. -/
def JSPromise.thenP {α β : Type} : JSPromise α → (α → JSPromise β) → JSPromise β
  | .fulfilled v, f => f v
  | .rejected r, _ => .rejected r

/-- `promise.catch(f)` with a synchronous handler: recover a rejection
into a fulfillment, pass a fulfillment through. -/
def JSPromise.catchF {α : Type} : JSPromise α → (JSValue → α) → JSPromise α
  | .fulfilled v, _ => .fulfilled v
  | .rejected r, f => .fulfilled (f r)

/-- Embeds the `AsyncResult` class of asyncResult.ts: it owns exactly
one promise of a `Result`. -/
structure AsyncResult (Val ErrT : Type) where
  promise : JSPromise (Result Val ErrT)

/-- Embeds `AsyncResult.fromPromise`: fulfillment wrapped as `Ok`,
rejection normalized through `thrownUnknownToBaseError` and wrapped as
`Err`. -/
def AsyncResult.fromPromise {Val : Type} (promise : JSPromise Val) :
    AsyncResult Val NormResult :=
  ⟨(promise.thenF (fun val => Result.Ok val)).catchF
    (fun err => Result.Err (thrownUnknownToBaseError err))⟩

/-- Embeds `AsyncResult.fromResult`: wraps `Promise.resolve(result)`. -/
def AsyncResult.fromResult {Val ErrT : Type} (result : Result Val ErrT) :
    AsyncResult Val ErrT :=
  ⟨.fulfilled result⟩

/-- Embeds `AsyncResult.fromResultPromise`. -/
def AsyncResult.fromResultPromise {Val ErrT : Type}
    (resultPromise : JSPromise (Result Val ErrT)) : AsyncResult Val ErrT :=
  ⟨resultPromise⟩

/-- Embeds the private `AsyncResult.thenInternal`: a new `AsyncResult`
whose promise chains the async mapper onto the current promise. -/
def AsyncResult.thenInternal {Val ErrT NewVal NewErr : Type}
    (ar : AsyncResult Val ErrT)
    (mapper : Result Val ErrT → JSPromise (Result NewVal NewErr)) :
    AsyncResult NewVal NewErr :=
  ⟨ar.promise.thenP mapper⟩

/-- Embeds `AsyncResult.mapOrElse`; the mapper and fallback may be
asynchronous (their returned promise is awaited), and both branches wrap
the awaited value as `Ok`. -/
def AsyncResult.mapOrElse {Val ErrT NewVal : Type} (ar : AsyncResult Val ErrT)
    (mapper : Val → JSPromise NewVal) (fallback : ErrT → JSPromise NewVal) :
    AsyncResult NewVal ErrT :=
  ar.thenInternal (fun res =>
    match res with
    | .Ok v => (mapper v).thenF (fun w => Result.Ok w)
    | .Err e => (fallback e).thenF (fun w => Result.Ok w))

/-- Embeds `AsyncResult.mapErr`; the mapper may be asynchronous. -/
def AsyncResult.mapErr {Val ErrT NewErr : Type} (ar : AsyncResult Val ErrT)
    (mapper : ErrT → JSPromise NewErr) : AsyncResult Val NewErr :=
  ar.thenInternal (fun res =>
    match res with
    | .Ok v => .fulfilled (Result.Ok v)
    | .Err e => (mapper e).thenF (fun w => Result.Err w))

/-- Embeds `toAsync` of result.ts: `AsyncResult.fromResult(this)`. -/
def Result.toAsync {Val ErrT : Type} (r : Result Val ErrT) : AsyncResult Val ErrT :=
  AsyncResult.fromResult r

/-- Embeds `toResult` of result.ts. The invocation of `fn` is modelled
by its outcome: `.ok v` for a normal return, `.error e` for a thrown
value. The thrown value is wrapped raw, with no normalization. -/
def toResult {T E : Type} (fn : Except E T) : Result T E :=
  match fn with
  | .ok val => .Ok val
  | .error e => .Err e

/-- Embeds the function `resultify(fn, mapErr)` of result.ts returns,
when an error mapper was supplied: a thrown value is normalized and then
mapped. -/
def resultify {TRes E : Type} (fn : Except JSValue TRes)
    (mapErr : NormResult → E) : Result TRes E :=
  match fn with
  | .ok val => .Ok val
  | .error err => .Err (mapErr (thrownUnknownToBaseError err))

/-- Embeds the function `resultify(fn)` of result.ts returns when no
error mapper was supplied: a thrown value is normalized and wrapped. -/
def resultifyDefault {TRes : Type} (fn : Except JSValue TRes) :
    Result TRes NormResult :=
  match fn with
  | .ok val => .Ok val
  | .error err => .Err (thrownUnknownToBaseError err)

/-- Embeds the function `asyncResultify(fn)` of asyncResult.ts returns
(no error mapper). `fn`'s invocation is modelled by its outcome:
`.error x` when `fn` throws synchronously (the call
`AsyncResult.fromPromise(fn(...params))` sits in no try block, so the
throw propagates), `.ok p` when it returns the promise `p`. -/
def asyncResultify {TRes : Type} (fn : Except JSValue (JSPromise TRes)) :
    Except JSValue (AsyncResult TRes NormResult) :=
  match fn with
  | .error e => .error e
  | .ok p => .ok (AsyncResult.fromPromise p)

/-- Embeds the function `asyncResultify(fn, mapErr)` of asyncResult.ts
returns when an error mapper (possibly asynchronous) was supplied. -/
def asyncResultifyWith {TRes E : Type} (fn : Except JSValue (JSPromise TRes))
    (mapErr : NormResult → JSPromise E) : Except JSValue (AsyncResult TRes E) :=
  match fn with
  | .error e => .error e
  | .ok p => .ok ((AsyncResult.fromPromise p).mapErr mapErr)

/-- Helper for `strContains`: does the needle occur in the haystack
character list. -/
def containsAux (needle : List Char) : List Char → Bool
  | [] => needle.isEmpty
  | c :: rest => List.isPrefixOf needle (c :: rest) || containsAux needle rest

/-- Boolean substring test used to state the scenario claims. -/
def strContains (hay needle : String) : Bool :=
  containsAux needle.data hay.data

/-- A value whose `toString()` call returns a string has a callable
`toString`. -/
theorem hasToStringFn_of_jsToString {x : JSValue} {s : String}
    (h : jsToString x = some s) : hasToStringFn x = true := by
  cases x with
  | vNull => simp [jsToString] at h
  | vUndefined => simp [jsToString] at h
  | vBool b => rfl
  | vNum n => rfl
  | vStr t => rfl
  | vArr t => rfl
  | vErr n m st => rfl
  | vObj fields ts =>
    cases ts with
    | noFn => simp [jsToString] at h
    | defaultFn => rfl
    | custom r => rfl

/-- The `BaseError` message is the base text plus a `": <s>"` suffix
exactly when `toString()` yields the string `s`. -/
theorem mkMessage_eq (x : JSValue) :
    BaseError.mkMessage x
      = "Caught exotic value (" ++ (if isArray x then "array" else typeof x) ++ ")"
        ++ (match jsToString x with | some s => ": " ++ s | none => "") := by
  unfold BaseError.mkMessage
  cases h : jsToString x with
  | none =>
    cases hf : hasToStringFn x <;> simp [h, hf]
  | some s =>
    simp only [h, hasToStringFn_of_jsToString h, Bool.not_true,
      Bool.false_eq_true, if_false]
    rw [String.append_assoc]

/-- C1: `AsyncResult.fromPromise` turns a promise fulfilled with `v`
into a settled success `Result` holding `v`, and a promise rejected with
`r` into a settled failure holding the normalized `r`; when `r` is a
native `Error` instance the normalizer passes that same instance
through unchanged. -/
theorem claim_c1 :
    (∀ (Val : Type) (v : Val),
      (AsyncResult.fromPromise (JSPromise.fulfilled v)).promise
        = .fulfilled (.Ok v)) ∧
    (∀ (Val : Type) (r : JSValue),
      (AsyncResult.fromPromise (JSPromise.rejected r : JSPromise Val)).promise
        = .fulfilled (.Err (thrownUnknownToBaseError r))) ∧
    (∀ (name message : String) (stack : Option String),
      thrownUnknownToBaseError (.vErr name message stack)
        = .passthrough (.vErr name message stack)) :=
  ⟨fun _ _ => rfl, fun _ _ => rfl, fun _ _ _ => rfl⟩

/-- C2: a value that is not a native error instance but is an object
carrying both a `name` and a `message` property and a custom
(non-default) string conversion is returned unchanged by the error
normalizer — it is never wrapped. -/
theorem claim_c2 (fields : List String) (ret : Option String)
    (hname : "name" ∈ fields) (hmsg : "message" ∈ fields) :
    thrownUnknownToBaseError (.vObj fields (.custom ret))
      = .passthrough (.vObj fields (.custom ret)) := by
  have hn : fields.contains "name" = true := by
    simpa using hname
  have hm : fields.contains "message" = true := by
    simpa using hmsg
  unfold thrownUnknownToBaseError isResultBaseError
  simp [instanceofError, jsTruthy, typeof, hasField, hasDefaultToString, hn, hm,
    hname, hmsg]

/-- Witness for C2 at a concrete error-shaped object. -/
theorem claim_c2_witness :
    thrownUnknownToBaseError (.vObj ["name", "message"] (.custom (some "E: m")))
      = .passthrough (.vObj ["name", "message"] (.custom (some "E: m"))) :=
  claim_c2 ["name", "message"] (some "E: m") (by simp) (by simp)

/-- C3 fails as stated: `Failure(5).unwrap()` raises a message that
starts with "Tried to unwrap an Error result", and the text "Tried to
unwrap a failure result" required by the claim occurs nowhere in it. -/
theorem claim_c3_counterexample :
    Result.unwrap (.Err (.vNum 5) : Result Unit JSValue)
      = .error (.errObj "Tried to unwrap an Error result\n    Original error is: 5") ∧
    strContains "Tried to unwrap an Error result\n    Original error is: 5"
      "Tried to unwrap a failure result" = false :=
  ⟨rfl, rfl⟩

/-- C3 amended: the raised message is "Tried to unwrap an Error result"
(not "a failure result") followed by a newline, the indent, and the
nested rendering of the held error; in particular for the held error `5`
the message contains both "Tried to unwrap" and "5". -/
theorem claim_c3_amended :
    (∀ (e : JSValue) (add : Option String),
      getAdditionalErrorMessage e = .ok add →
      Result.unwrap (.Err e : Result Unit JSValue)
        = .error (.errObj ("Tried to unwrap an Error result" ++ "\n"
            ++ origErrIndent ++ jsStrOrUndefined add))) ∧
    (Result.unwrap (.Err (.vNum 5) : Result Unit JSValue)
      = .error (.errObj "Tried to unwrap an Error result\n    Original error is: 5")) ∧
    strContains "Tried to unwrap an Error result\n    Original error is: 5"
      "Tried to unwrap" = true ∧
    strContains "Tried to unwrap an Error result\n    Original error is: 5"
      "5" = true := by
  refine ⟨fun e add h => ?_, rfl, rfl, rfl⟩
  simp [Result.unwrap, ERR.throwError, h]

/-- Witness for C3 amended at the held error `null`. -/
theorem claim_c3_amended_witness :
    Result.unwrap (.Err .vNull : Result Unit JSValue)
      = .error (.errObj ("Tried to unwrap an Error result" ++ "\n"
          ++ origErrIndent ++ jsStrOrUndefined (some "Original error is null"))) :=
  claim_c3_amended.1 .vNull (some "Original error is null") rfl

/-- C4 fails as stated: a plain object with only the default string
conversion still gets `": [object Object]"` appended to its wrapper's
message, although the claim allows the suffix only for a custom
(non-default) conversion and so predicts the bare message. -/
theorem claim_c4_counterexample :
    thrownUnknownToBaseError (.vObj [] .defaultFn)
      = .wrapped "BaseError" "Caught exotic value (object): [object Object]"
          (.vObj [] .defaultFn) ∧
    NormResult.wrappedMessage (thrownUnknownToBaseError (.vObj [] .defaultFn))
      ≠ some "Caught exotic value (object)" :=
  ⟨rfl, by decide⟩

/-- C4 amended: for every value that is neither a native error instance
nor a proper error shape, the normalizer wraps it with name "BaseError",
`origValue` the value itself, and message "Caught exotic value (<kind>)"
with kind "array" for arrays and the `typeof` name otherwise, appending
": <s>" whenever the value's `toString()` call yields a string `s` —
including the default object conversion, not only custom ones. The
concrete cases of the claim hold: `normalize(1)` yields the message
"Caught exotic value (number): 1" and `normalize(new Error('x'))` is an
identity-preserving passthrough. -/
theorem claim_c4_amended :
    (∀ (x : JSValue), instanceofError x = false → isResultBaseError x = false →
      thrownUnknownToBaseError x
        = .wrapped "BaseError"
            ("Caught exotic value (" ++ (if isArray x then "array" else typeof x) ++ ")"
              ++ (match jsToString x with | some s => ": " ++ s | none => "")) x) ∧
    (thrownUnknownToBaseError (.vNum 1)
      = .wrapped "BaseError" "Caught exotic value (number): 1" (.vNum 1)) ∧
    (thrownUnknownToBaseError (.vErr "Error" "x" none)
      = .passthrough (.vErr "Error" "x" none)) := by
  refine ⟨fun x h1 h2 => ?_, rfl, rfl⟩
  unfold thrownUnknownToBaseError
  simp [h1, h2, mkMessage_eq]

/-- Witness for C4 amended at the thrown value `1`. -/
theorem claim_c4_amended_witness :
    thrownUnknownToBaseError (.vNum 1)
      = .wrapped "BaseError"
          ("Caught exotic value ("
              ++ (if isArray (.vNum 1) then "array" else typeof (.vNum 1)) ++ ")"
            ++ (match jsToString (.vNum 1) with | some s => ": " ++ s | none => ""))
          (.vNum 1) :=
  claim_c4_amended.1 (.vNum 1) rfl rfl

/-- C5: `toResult` wraps a normal return as `Ok` and a thrown value raw
as `Err` with no normalization (parametric in the thrown type), while
`resultify` without a mapper normalizes, so throwing `1` produces a
failure whose `err().origValue` is `1`. -/
theorem claim_c5 :
    (∀ (T E : Type) (v : T), toResult (.ok v : Except E T) = .Ok v) ∧
    (∀ (T E : Type) (x : E), toResult (.error x : Except E T) = .Err x) ∧
    ((resultifyDefault (.error (.vNum 1) : Except JSValue Unit)).err.map NormResult.origValue
      = some (some (.vNum 1))) :=
  ⟨fun _ _ _ => rfl, fun _ _ _ => rfl, rfl⟩

/-- C6: `mapOrElse(fn, fallback)` sends a success holding `v` to
`Ok (fn v)` and a failure holding `e` to `Ok (fallback e)`, so its
output is a success for every input variant; the `AsyncResult` lift
settles to the same success. -/
theorem claim_c6 :
    (∀ (Val ErrT MappedVal : Type) (fn : Val → MappedVal) (fb : ErrT → MappedVal)
      (v : Val), Result.mapOrElse (.Ok v) fn fb = .Ok (fn v)) ∧
    (∀ (Val ErrT MappedVal : Type) (fn : Val → MappedVal) (fb : ErrT → MappedVal)
      (e : ErrT), Result.mapOrElse (.Err e) fn fb = .Ok (fb e)) ∧
    (∀ (Val ErrT MappedVal : Type) (fn : Val → MappedVal) (fb : ErrT → MappedVal)
      (r : Result Val ErrT), (Result.mapOrElse r fn fb).isOk = true) ∧
    (∀ (Val ErrT MappedVal : Type) (fn : Val → MappedVal) (fb : ErrT → MappedVal)
      (r : Result Val ErrT),
      (AsyncResult.mapOrElse (AsyncResult.fromResult r)
          (fun v => .fulfilled (fn v)) (fun e => .fulfilled (fb e))).promise
        = .fulfilled (Result.mapOrElse r fn fb)) := by
  refine ⟨fun _ _ _ _ _ _ => rfl, fun _ _ _ _ _ _ => rfl,
    fun _ _ _ _ _ r => ?_, fun _ _ _ _ _ r => ?_⟩
  · cases r <;> rfl
  · cases r <;> rfl

/-- C7: the mapper-skip law. `Failure(e).map(fn)` is a failure still
holding `e` and its outcome is independent of `fn` (the mapper is never
invoked); `Success(v).mapErr(fn)` is a success still holding `v`,
independent of `fn`. -/
theorem claim_c7 :
    (∀ (Val ErrT MappedVal : Type) (e : ErrT) (fn : Val → MappedVal),
      Result.map (.Err e) fn = .Err e) ∧
    (∀ (Val ErrT MappedVal : Type) (e : ErrT) (fn gn : Val → MappedVal),
      Result.map (.Err e) fn = Result.map (.Err e) gn) ∧
    (∀ (Val ErrT MappedErr : Type) (v : Val) (fm : ErrT → MappedErr),
      Result.mapErr (.Ok v) fm = .Ok v) ∧
    (∀ (Val ErrT MappedErr : Type) (v : Val) (fm gm : ErrT → MappedErr),
      Result.mapErr (.Ok v) fm = Result.mapErr (.Ok v) gm) :=
  ⟨fun _ _ _ _ _ => rfl, fun _ _ _ _ _ _ => rfl,
    fun _ _ _ _ _ => rfl, fun _ _ _ _ _ _ => rfl⟩

/-- C8: round trip — for a `Result` of either variant, `toAsync()`
produces an `AsyncResult` whose contained promise settles to that very
`Result`. -/
theorem claim_c8 :
    ∀ (Val ErrT : Type) (r : Result Val ErrT),
      (Result.toAsync r).promise = .fulfilled r :=
  fun _ _ _ => rfl

/-- C9 fails as stated: not every primitive held value is rendered in
its literal printed form. A failure holding the boolean `true` falls
through every rendering case, so the raised message appends the coerced
text "undefined" and the literal form "true" occurs nowhere in it. -/
theorem claim_c9_counterexample :
    getAdditionalErrorMessage (.vBool true) = .ok none ∧
    Result.unwrap (.Err (.vBool true) : Result Unit JSValue)
      = .error (.errObj "Tried to unwrap an Error result\n    undefined") ∧
    strContains "Tried to unwrap an Error result\n    undefined" "true" = false :=
  ⟨rfl, rfl, rfl⟩

/-- C9 amended: the message raised by `expect` (and `unwrap`) on a
failure appends the nested rendering of the held error, which is: the
prefixed trace for a native error; a null notice for `null`; the "is an
object" notice for a plain object with the default conversion; the
prefixed string form for an object with a custom string conversion; the
literal printed form for numbers and for strings (the latter quoted);
and no rendering at all for every other primitive (booleans,
`undefined`) — the message then shows the coerced text "undefined". -/
theorem claim_c9_amended :
    (∀ (e : JSValue) (msg : String) (add : Option String),
      getAdditionalErrorMessage e = .ok add →
      Result.expect (.Err e : Result Unit JSValue) msg
        = .error (.errObj (msg ++ "\n" ++ origErrIndent ++ jsStrOrUndefined add))) ∧
    (∀ (name message st : String),
      getAdditionalErrorMessage (.vErr name message (some st))
        = .ok (some ("Original error:\n" ++ prefixMultiLineStr st))) ∧
    (getAdditionalErrorMessage .vNull = .ok (some "Original error is null")) ∧
    (∀ (fields : List String),
      getAdditionalErrorMessage (.vObj fields .defaultFn)
        = .ok (some "Original error is object")) ∧
    (∀ (fields : List String) (s : String),
      getAdditionalErrorMessage (.vObj fields (.custom (some s)))
        = .ok (some ("Original error:\n" ++ prefixMultiLineStr s))) ∧
    (∀ (n : Int), getAdditionalErrorMessage (.vNum n)
      = .ok (some ("Original error is: " ++ toString n))) ∧
    (∀ (s : String), getAdditionalErrorMessage (.vStr s)
      = .ok (some ("Original error is: \"" ++ s ++ "\""))) ∧
    (∀ (b : Bool), getAdditionalErrorMessage (.vBool b) = .ok none) ∧
    (getAdditionalErrorMessage .vUndefined = .ok none) := by
  refine ⟨fun e msg add h => ?_, fun _ _ _ => rfl, rfl, fun _ => rfl,
    fun _ _ => rfl, fun _ => rfl, fun _ => rfl, fun _ => rfl, rfl⟩
  simp [Result.expect, ERR.throwError, h]

/-- Witness for C9 amended at the held error `true` with message
"boom". -/
theorem claim_c9_amended_witness :
    Result.expect (.Err (.vBool true) : Result Unit JSValue) "boom"
      = .error (.errObj ("boom" ++ "\n" ++ origErrIndent ++ jsStrOrUndefined none)) :=
  claim_c9_amended.1 (.vBool true) "boom" none rfl

/-- C10: a synchronous throw from the function handed to
`asyncResultify` propagates raw out of the returned function — it is
neither caught, normalized, nor packaged into a failure `AsyncResult`
(with or without an error mapper) — while a rejection of the returned
promise is converted into a normalized failure. -/
theorem claim_c10 :
    (∀ (Val : Type) (x : JSValue),
      asyncResultify (.error x : Except JSValue (JSPromise Val)) = .error x) ∧
    (∀ (Val E : Type) (x : JSValue) (mapErr : NormResult → JSPromise E),
      asyncResultifyWith (.error x : Except JSValue (JSPromise Val)) mapErr = .error x) ∧
    (∀ (Val : Type) (p : JSPromise Val),
      asyncResultify (.ok p) = .ok (AsyncResult.fromPromise p)) ∧
    (∀ (Val : Type) (r : JSValue),
      (AsyncResult.fromPromise (.rejected r : JSPromise Val)).promise
        = .fulfilled (.Err (thrownUnknownToBaseError r))) :=
  ⟨fun _ _ => rfl, fun _ _ _ _ => rfl, fun _ _ => rfl, fun _ _ => rfl⟩

end BaseTsResult
